import Mathlib

/-!
Verification of the shell-surface lifecycle and spatial-query engine behind
`wlroots/wlr_types/xdg_shell.py` and `wlroots/wlr_types/layer_shell.py`.

The Python modules are thin wrappers delegating to a native compositor
library; the spec (§1) defines the core engine such a binding fronts:
surface trees with roles, mapped state, geometry, hit-testing and
pre-order traversal.  Where the wrapper itself decides behaviour (the
role check in `set_activated`, the absence of one in `set_size`, the
`(None, 0.0, 0.0)` no-match result of `surface_at`) the embedding follows
the Python source; the delegated engine is modelled from the spec.
Coordinates are modelled with `Int` (the doubles passed through the
binding carry values only; no rounding is involved in the properties).
-/

/-- Axis-aligned rectangle from `box.py` / spec §3: `{x, y, width, height}`,
x and y may be negative. -/
structure Box where
  x : Int
  y : Int
  width : Int
  height : Int
deriving DecidableEq, Repr

/-- A box is empty when it has no area (width or height not positive). -/
def emptyBox (b : Box) : Bool :=
  b.width ≤ 0 || b.height ≤ 0

/-- Bounding box of two boxes; an empty box is absorbed. -/
def boxUnion (a b : Box) : Box :=
  if emptyBox a then b
  else if emptyBox b then a
  else
    { x := min a.x b.x
      y := min a.y b.y
      width := max (a.x + a.width) (b.x + b.width) - min a.x b.x
      height := max (a.y + a.height) (b.y + b.height) - min a.y b.y }

/-- Translate a box by an offset. -/
def translateBox (dx dy : Int) (b : Box) : Box :=
  { b with x := b.x + dx, y := b.y + dy }

/-- Point-in-box test (half-open on the far edges). -/
def inBox (b : Box) (x y : Int) : Bool :=
  b.x ≤ x && x < b.x + b.width && b.y ≤ y && y < b.y + b.height

/-- Modelled from the spec: a node of the surface tree tracked by the
native library behind `wlr_xdg_surface_surface_at` /
`wlr_xdg_surface_for_each_surface` (spec §3 ShellSurface, §4.3).  `sid`
identifies the surface, `ox`/`oy` is its local position offset relative to
its parent, `geo` its geometry box in its own coordinates, and `children`
holds popups/subsurfaces in attachment (rendering) order. -/
inductive SNode where
  | mk (sid : Nat) (ox oy : Int) (geo : Box) (mapped : Bool) (children : List SNode)

def SNode.sid : SNode → Nat
  | .mk i _ _ _ _ _ => i

def SNode.ox : SNode → Int
  | .mk _ a _ _ _ _ => a

def SNode.oy : SNode → Int
  | .mk _ _ b _ _ _ => b

def SNode.geo : SNode → Box
  | .mk _ _ _ g _ _ => g

def SNode.mapped : SNode → Bool
  | .mk _ _ _ _ m _ => m

def SNode.children : SNode → List SNode
  | .mk _ _ _ _ _ cs => cs

mutual
/-- Modelled from the spec: hit-testing (`surface_at`, spec §4.3), the
engine behind the native `wlr_xdg_surface_surface_at`: children are
tested before the node itself, in reverse attachment order (topmost
first); first match wins and is returned with the point's coordinates
local to the matched node. -/
def surfaceAtNode : SNode → Int → Int → Option (Nat × Int × Int)
  | SNode.mk sid _ _ geo _ cs, x, y =>
    match surfaceAtChildren cs x y with
    | some r => some r
    | none => if inBox geo x y then some (sid, x, y) else none

/-- Hit-test a list of children in reverse attachment order: the later
siblings (drawn on top) take priority over the earlier ones. -/
def surfaceAtChildren : List SNode → Int → Int → Option (Nat × Int × Int)
  | [], _, _ => none
  | c :: rest, x, y =>
    match surfaceAtChildren rest x y with
    | some r => some r
    | none => surfaceAtNode c (x - c.ox) (y - c.oy)
end

/-- From `XdgSurface.surface_at` in `xdg_shell.py`: delegates to the
native hit test and converts the no-match (NULL) result into
`(None, 0.0, 0.0)`. -/
def XdgSurface.surface_at (t : SNode) (x y : Int) : Option Nat × Int × Int :=
  match surfaceAtNode t x y with
  | some (sid, lx, ly) => (some sid, lx, ly)
  | none => (none, 0, 0)

/-- From `LayerSurface.surface_at` in `layer_shell.py`: same shape as the
xdg variant, over the analogous native call (spec §4.4: analogous
pattern). -/
def LayerSurface.surface_at (t : SNode) (x y : Int) : Option Nat × Int × Int :=
  match surfaceAtNode t x y with
  | some (sid, lx, ly) => (some sid, lx, ly)
  | none => (none, 0, 0)

mutual
/-- Modelled from the spec: the traversal behind
`wlr_xdg_surface_for_each_surface` (spec §4.3): pre-order, the node first,
then the children subtrees in attachment order, each visit reported with
the cumulative offset `(dx, dy)` relative to the tree root.  The visit
list records `(sid, dx, dy)` for each visited node. -/
def for_each_surface : SNode → Int → Int → List (Nat × Int × Int)
  | SNode.mk sid _ _ _ _ cs, dx, dy => (sid, dx, dy) :: forEachChildren cs dx dy

/-- Traverse a child list in attachment order, adding each child's local
offset to the running cumulative offset. -/
def forEachChildren : List SNode → Int → Int → List (Nat × Int × Int)
  | [], _, _ => []
  | c :: rest, dx, dy =>
    for_each_surface c (dx + c.ox) (dy + c.oy) ++ forEachChildren rest dx dy
end

/-- Bump the leading child index of a non-empty path by one. -/
def shiftHead : List Nat → List Nat
  | [] => []
  | i :: p => (i + 1) :: p

mutual
/-- All paths (lists of child indices from the root) of the tree, in the
order `for_each_surface` visits the corresponding nodes. -/
def paths : SNode → List (List Nat)
  | SNode.mk _ _ _ _ _ cs => [] :: pathsCh cs

/-- Paths into a child list: paths into the head child keep index 0,
paths into the rest are shifted up by one. -/
def pathsCh : List SNode → List (List Nat)
  | [] => []
  | c :: rest => (paths c).map (List.cons 0) ++ (pathsCh rest).map shiftHead
end

/-- Resolve a path to the visited node's id together with the cumulative
offset of that node relative to `t`, obtained by summing the local
position offsets of the nodes along the path (the node's ancestors below
the root, and the node itself). -/
def visitOf : SNode → List Nat → Nat × Int × Int
  | t, [] => (t.sid, 0, 0)
  | t, i :: p =>
    match t.children.get? i with
    | some c =>
      ((visitOf c p).1, c.ox + (visitOf c p).2.1, c.oy + (visitOf c p).2.2)
    | none => (0, 0, 0)

/-- Strict ordering of tree paths as pre-order visits them: a proper
ancestor path comes before any path extending it, and sibling subtrees
are ordered by child index (attachment order). -/
def pathLt : List Nat → List Nat → Prop
  | [], [] => False
  | [], _ :: _ => True
  | _ :: _, [] => False
  | a :: p, b :: q => a < b ∨ (a = b ∧ pathLt p q)

/-- The lookup function over a child list used to relate `forEachChildren`
to `pathsCh`. -/
def visitCh (cs : List SNode) : List Nat → Nat × Int × Int
  | [] => (0, 0, 0)
  | i :: p =>
    match cs.get? i with
    | some c =>
      ((visitOf c p).1, c.ox + (visitOf c p).2.1, c.oy + (visitOf c p).2.2)
    | none => (0, 0, 0)

theorem pathsCh_ne_nil : ∀ (cs : List SNode), ∀ p ∈ pathsCh cs, p ≠ [] := by
  intro cs
  induction cs with
  | nil => intro p hp; simp [pathsCh] at hp
  | cons c rest ih =>
    intro p hp
    simp only [pathsCh, List.mem_append, List.mem_map] at hp
    rcases hp with ⟨q, _, rfl⟩ | ⟨q, hq, rfl⟩
    · simp
    · have := ih q hq
      cases q with
      | nil => exact absurd rfl this
      | cons i q' => simp [shiftHead]

mutual
theorem for_each_eq (t : SNode) (dx dy : Int) :
    for_each_surface t dx dy
      = (paths t).map
          (fun p => ((visitOf t p).1, dx + (visitOf t p).2.1, dy + (visitOf t p).2.2)) := by
  cases t with
  | mk sid ox oy geo m cs =>
    simp only [for_each_surface, paths, List.map_cons, visitOf, SNode.sid, add_zero]
    have h : forEachChildren cs dx dy
        = (pathsCh cs).map
            (fun p => ((visitOf (SNode.mk sid ox oy geo m cs) p).1,
              dx + (visitOf (SNode.mk sid ox oy geo m cs) p).2.1,
              dy + (visitOf (SNode.mk sid ox oy geo m cs) p).2.2)) := by
      rw [forEachChildren_eq cs dx dy]
      apply List.map_congr_left
      intro p hp
      have hne := pathsCh_ne_nil cs p hp
      cases p with
      | nil => exact absurd rfl hne
      | cons i q => simp [visitCh, visitOf, SNode.children]
    rw [h]

theorem forEachChildren_eq (cs : List SNode) (dx dy : Int) :
    forEachChildren cs dx dy
      = (pathsCh cs).map
          (fun p => ((visitCh cs p).1, dx + (visitCh cs p).2.1, dy + (visitCh cs p).2.2)) := by
  cases cs with
  | nil => simp [forEachChildren, pathsCh]
  | cons c rest =>
    have h1 := for_each_eq c (dx + c.ox) (dy + c.oy)
    have h2 := forEachChildren_eq rest dx dy
    simp only [forEachChildren, pathsCh, List.map_append, List.map_map]
    congr 1
    · rw [h1]
      apply List.map_congr_left
      intro q hq
      simp [Function.comp, visitCh, SNode.children, add_assoc]
    · rw [h2]
      apply List.map_congr_left
      intro q hq
      have hne := pathsCh_ne_nil rest q hq
      cases q with
      | nil => exact absurd rfl hne
      | cons i q' => simp [Function.comp, shiftHead, visitCh]
end

theorem pathLt_cons (i : Nat) {p q : List Nat} (h : pathLt p q) :
    pathLt (i :: p) (i :: q) :=
  Or.inr ⟨rfl, h⟩

theorem pathLt_shiftHead {p q : List Nat} (h : pathLt p q) :
    pathLt (shiftHead p) (shiftHead q) := by
  cases p with
  | nil =>
    cases q with
    | nil => simp [pathLt] at h
    | cons j q' => simp [shiftHead, pathLt]
  | cons i p' =>
    cases q with
    | nil => simp [pathLt] at h
    | cons j q' =>
      simp only [shiftHead, pathLt] at h ⊢
      rcases h with h | ⟨rfl, h⟩
      · exact Or.inl (by omega)
      · exact Or.inr ⟨rfl, h⟩

mutual
theorem paths_pairwise (t : SNode) : (paths t).Pairwise pathLt := by
  cases t with
  | mk sid ox oy geo m cs =>
    simp only [paths]
    refine List.Pairwise.cons ?_ (pathsCh_pairwise cs)
    intro p hp
    have hne := pathsCh_ne_nil cs p hp
    cases p with
    | nil => exact absurd rfl hne
    | cons i q => exact trivial

theorem pathsCh_pairwise (cs : List SNode) : (pathsCh cs).Pairwise pathLt := by
  cases cs with
  | nil => simp [pathsCh]
  | cons c rest =>
    simp only [pathsCh]
    rw [List.pairwise_append]
    refine ⟨?_, ?_, ?_⟩
    · exact (paths_pairwise c).map _ (fun _ _ h => pathLt_cons 0 h)
    · exact (pathsCh_pairwise rest).map _ (fun _ _ h => pathLt_shiftHead h)
    · intro a ha b hb
      simp only [List.mem_map] at ha hb
      rcases ha with ⟨p, hp, rfl⟩
      rcases hb with ⟨q, hq, rfl⟩
      have hqne := pathsCh_ne_nil rest q hq
      cases q with
      | nil => exact absurd rfl hqne
      | cons j q' => exact Or.inl (Nat.succ_pos j)
end

/-- From `XdgSurfaceRole` in `xdg_shell.py` extended per spec §3
`SurfaceRole`: `{None, Toplevel, Popup, LayerSurface}`. -/
inductive SurfaceRole where
  | none
  | toplevel
  | popup
  | layerSurface
deriving DecidableEq, Repr

/-- Error kinds of spec §7. -/
inductive ShellError where
  | roleMismatch
  | roleAlreadySet
  | roleRequired
  | notFound
  | invalidSurfaceObject
deriving DecidableEq, Repr

/-- Lifecycle notifications of spec §6 relevant to the `unmap`-before-
`destroy` invariant. -/
inductive Ev where
  | mapEv
  | unmapEv
  | destroyEv
deriving DecidableEq, Repr

/-- A child surface as seen by the parent's effective-geometry
computation (spec §4.2 `set_geometry`): local offset, geometry box and
mapped state. -/
structure ChildGeo where
  ox : Int
  oy : Int
  geo : Box
  mapped : Bool
deriving DecidableEq, Repr

/-- Modelled from the spec: the state of one shell surface tracked by the
engine behind the binding (spec §3 ShellSurface, §4.2, §4.4); the native
`wlr_xdg_surface` state is not part of the Python source.  `geometry` is
the client-set box (possibly empty), `surfaceExtent` the bounds of the
surface content itself, `pendingConfigures` the serials of configure
requests queued to the client, `nextSerial` the next configure serial. -/
structure ShellSurface where
  role : SurfaceRole
  geometry : Box
  surfaceExtent : Box
  children : List ChildGeo
  mapped : Bool
  destroyed : Bool
  activated : Bool
  nextSerial : Nat
  pendingConfigures : List Nat
  requestedSize : Option (Int × Int)
deriving DecidableEq, Repr

/-- A freshly created surface (spec §4.1 `create_surface`): role still
`None`, unmapped, empty geometry. -/
def newSurface : ShellSurface :=
  { role := SurfaceRole.none
    geometry := Box.mk 0 0 0 0
    surfaceExtent := Box.mk 0 0 0 0
    children := []
    mapped := false
    destroyed := false
    activated := false
    nextSerial := 1
    pendingConfigures := []
    requestedSize := Option.none }

/-- Modelled from the spec: `assign_role` (spec §4.2), one-time; fails
with `RoleAlreadySet` if the role was already assigned. -/
def assign_role (s : ShellSurface) (r : SurfaceRole) : Except ShellError ShellSurface :=
  if s.role ≠ SurfaceRole.none then Except.error ShellError.roleAlreadySet
  else Except.ok { s with role := r }

/-- Modelled from the spec: `set_geometry` (spec §4.2) stores the
client-driven box; the effective geometry is recomputed on read. -/
def set_geometry (s : ShellSurface) (b : Box) : ShellSurface :=
  { s with geometry := b }

/-- From `XdgSurface.get_geometry` in `xdg_shell.py`, native part
modelled from the spec (§4.2): the geometry as set by the client if
non-empty, else the bounding box of the surface content and all mapped
children's geometries translated by their offsets. -/
def get_geometry (s : ShellSurface) : Box :=
  if emptyBox s.geometry then
    ((s.children.filter (fun c => c.mapped)).map
      (fun c => translateBox c.ox c.oy c.geo)).foldl boxUnion s.surfaceExtent
  else s.geometry

/-- From `XdgSurface.set_size` in `xdg_shell.py`: the wrapper performs no
role check and delegates unconditionally; native part modelled from the
spec (§4.4): queues a configure request to the client and returns its
serial, without touching the geometry. -/
def set_size (s : ShellSurface) (w h : Int) : ShellSurface × Nat :=
  ({ s with
      nextSerial := s.nextSerial + 1
      pendingConfigures := s.pendingConfigures ++ [s.nextSerial]
      requestedSize := some (w, h) }, s.nextSerial)

/-- From `XdgSurface.set_activated` in `xdg_shell.py`: fails unless the
role is Toplevel (spec §4.4 `RoleMismatch`); native part modelled from
the spec: mirrors the state locally, queues a configure request and
returns its serial. -/
def set_activated (s : ShellSurface) (b : Bool) : Except ShellError (ShellSurface × Nat) :=
  if s.role = SurfaceRole.toplevel then
    Except.ok
      ({ s with
          activated := b
          nextSerial := s.nextSerial + 1
          pendingConfigures := s.pendingConfigures ++ [s.nextSerial] }, s.nextSerial)
  else Except.error ShellError.roleMismatch

/-- From the `XdgSurface.toplevel` property in `xdg_shell.py`: the
accessor to the toplevel view; it raises unless the role is Toplevel
(spec §3 `RoleMismatch`) and mutates nothing. -/
def XdgSurface.toplevel (s : ShellSurface) : Except ShellError ShellSurface :=
  if s.role = SurfaceRole.toplevel then Except.ok s
  else Except.error ShellError.roleMismatch

/-- The operations of the lifecycle state machine (spec §4.2, §4.4). -/
inductive Op where
  | assignRole (r : SurfaceRole)
  | mapOp
  | unmapOp
  | destroyOp
  | setSize (w h : Int)
  | setActivated (b : Bool)
  | setGeometry (b : Box)
deriving DecidableEq, Repr

/-- Modelled from the spec: one step of the lifecycle state machine
(spec §4.2, §4.4, §7): the next state, the lifecycle notifications
emitted during the step (in emission order), and the synchronously
reported error, if any.  A destroyed surface accepts no operation
(spec §4.4: no transition out of Destroyed; §4.1: the handle is
invalidated, reported as `NotFound`).  `map` fails with `RoleRequired`
before a role is assigned; `map`/`unmap` are idempotent and notify only
on an actual transition; `destroy` synthesizes `unmap` first when the
surface is mapped. -/
def step (s : ShellSurface) (op : Op) : ShellSurface × List Ev × Option ShellError :=
  if s.destroyed then (s, [], some ShellError.notFound)
  else
    match op with
    | Op.assignRole r =>
      match assign_role s r with
      | Except.ok s2 => (s2, [], none)
      | Except.error e => (s, [], some e)
    | Op.mapOp =>
      if s.role = SurfaceRole.none then (s, [], some ShellError.roleRequired)
      else if s.mapped then (s, [], none)
      else ({ s with mapped := true }, [Ev.mapEv], none)
    | Op.unmapOp =>
      if s.mapped then ({ s with mapped := false }, [Ev.unmapEv], none)
      else (s, [], none)
    | Op.destroyOp =>
      ({ s with mapped := false, destroyed := true },
        (if s.mapped then [Ev.unmapEv] else []) ++ [Ev.destroyEv], none)
    | Op.setSize w h => ((set_size s w h).1, [], none)
    | Op.setActivated b =>
      match set_activated s b with
      | Except.ok (s2, _) => (s2, [], none)
      | Except.error e => (s, [], some e)
    | Op.setGeometry b => (set_geometry s b, [], none)

/-- Run a sequence of operations, collecting the emitted notifications in
order. -/
def runOps : ShellSurface → List Op → ShellSurface × List Ev
  | s, [] => (s, [])
  | s, op :: ops =>
    ((runOps (step s op).1 ops).1, (step s op).2.1 ++ (runOps (step s op).1 ops).2)

/-- The notification history of a fresh surface driven through `ops`. -/
def trace (ops : List Op) : List Ev :=
  (runOps newSurface ops).2

/-- A mapped toplevel surface used as a concrete test state. -/
def toplevelState : ShellSurface :=
  { newSurface with
      role := SurfaceRole.toplevel
      mapped := true
      surfaceExtent := Box.mk 0 0 10 10 }

/-- A mapped popup surface used as a concrete test state. -/
def popupState : ShellSurface :=
  { newSurface with
      role := SurfaceRole.popup
      mapped := true
      surfaceExtent := Box.mk 0 0 10 10 }

/-- The root of spec §8's geometry scenario: two mapped children whose
translated geometries are `(0,0,10,10)` and `(5,5,10,10)`. -/
def rootExample : ShellSurface :=
  { newSurface with
      role := SurfaceRole.toplevel
      mapped := true
      surfaceExtent := Box.mk 0 0 10 10
      children :=
        [ChildGeo.mk 0 0 (Box.mk 0 0 10 10) true,
          ChildGeo.mk 5 5 (Box.mk 0 0 10 10) true] }

theorem step_destroyed {s : ShellSurface} (op : Op) (h : s.destroyed = true) :
    step s op = (s, [], some ShellError.notFound) := by
  simp [step, h]

theorem runOps_destroyed {s : ShellSurface} (ops : List Op) (h : s.destroyed = true) :
    runOps s ops = (s, []) := by
  induction ops with
  | nil => rfl
  | cons op ops ih => simp [runOps, step_destroyed op h, ih]

theorem step_role_preserved {s : ShellSurface} (op : Op)
    (h : s.role ≠ SurfaceRole.none) : ((step s op).1).role = s.role := by
  by_cases hd : s.destroyed = true
  · simp [step_destroyed op hd]
  · cases op <;>
      simp [step, hd, assign_role, set_activated, set_size, set_geometry, h] <;>
      split_ifs <;> simp

theorem runOps_role_preserved : ∀ (ops : List Op) (s : ShellSurface),
    s.role ≠ SurfaceRole.none → ((runOps s ops).1).role = s.role := by
  intro ops
  induction ops with
  | nil => intro s _; rfl
  | cons op ops ih =>
    intro s h
    have h1 := step_role_preserved (s := s) op h
    have h2 : ((step s op).1).role ≠ SurfaceRole.none := by rw [h1]; exact h
    have h3 := ih (step s op).1 h2
    simp only [runOps]
    rw [h3, h1]

theorem step_no_destroy {s : ShellSurface} (op : Op) (hd : s.destroyed = false)
    (hop : op ≠ Op.destroyOp) :
    ((step s op).1).destroyed = false ∧ Ev.destroyEv ∉ (step s op).2.1 := by
  cases op with
  | destroyOp => exact absurd rfl hop
  | assignRole r =>
    simp [step, hd, assign_role]
    split_ifs <;> simp [hd]
  | mapOp =>
    simp [step, hd]
    split_ifs <;> simp [hd]
  | unmapOp =>
    simp [step, hd]
    split_ifs <;> simp [hd]
  | setSize w h => simp [step, hd, set_size]
  | setActivated b =>
    simp [step, hd, set_activated]
    split_ifs <;> simp [hd]
  | setGeometry b => simp [step, hd, set_geometry]

theorem step_destroyOp {s : ShellSurface} (hd : s.destroyed = false) :
    step s Op.destroyOp
      = ({ s with mapped := false, destroyed := true },
          (if s.mapped then [Ev.unmapEv] else []) ++ [Ev.destroyEv], none) := by
  simp [step, hd]

theorem destroy_last : ∀ (ops : List Op) (s : ShellSurface), s.destroyed = false →
    Ev.destroyEv ∈ (runOps s ops).2 →
    ∃ pre, (runOps s ops).2 = pre ++ [Ev.destroyEv] ∧ Ev.destroyEv ∉ pre := by
  intro ops
  induction ops with
  | nil => intro s hd hm; simp [runOps] at hm
  | cons op ops ih =>
    intro s hd hm
    by_cases hop : op = Op.destroyOp
    · subst hop
      refine ⟨if s.mapped then [Ev.unmapEv] else [], ?_, ?_⟩
      · simp only [runOps, step_destroyOp hd]
        rw [runOps_destroyed ops (by simp)]
        simp
      · cases hmap : s.mapped <;> simp
    · have hnd := step_no_destroy op hd hop
      simp only [runOps] at hm ⊢
      have hmem : Ev.destroyEv ∈ (runOps (step s op).1 ops).2 := by
        rcases List.mem_append.mp hm with h | h
        · exact absurd h hnd.2
        · exact h
      obtain ⟨pre, hpre, hnot⟩ := ih (step s op).1 hnd.1 hmem
      refine ⟨(step s op).2.1 ++ pre, ?_, ?_⟩
      · rw [hpre, List.append_assoc]
      · intro hmem2
        rcases List.mem_append.mp hmem2 with h | h
        · exact hnd.2 h
        · exact hnot h

theorem step_error_unchanged {s : ShellSurface} (op : Op) (e : ShellError)
    (h : (step s op).2.2 = some e) :
    (step s op).1 = s ∧ (step s op).2.1 = [] := by
  by_cases hd : s.destroyed = true
  · simp [step_destroyed op hd]
  · simp only [Bool.not_eq_true] at hd
    cases op with
    | assignRole r =>
      simp only [step, hd, assign_role] at h ⊢
      split_ifs at h ⊢ <;> simp_all
    | mapOp =>
      simp only [step, hd] at h ⊢
      split_ifs at h ⊢ <;> simp_all
    | unmapOp =>
      simp only [step, hd] at h ⊢
      split_ifs at h ⊢ <;> simp_all
    | destroyOp => simp [step, hd] at h
    | setSize w hh => simp [step, hd] at h
    | setActivated b =>
      simp only [step, hd, set_activated] at h ⊢
      split_ifs at h ⊢ <;> simp_all
    | setGeometry b => simp [step, hd] at h

theorem pathLt_self_append : ∀ (p r : List Nat), r ≠ [] → pathLt p (p ++ r) := by
  intro p
  induction p with
  | nil =>
    intro r hr
    cases r with
    | nil => exact absurd rfl hr
    | cons i r' => exact trivial
  | cons a p' ih =>
    intro r hr
    exact Or.inr ⟨rfl, ih r hr⟩

theorem pathLt_sibling : ∀ (p : List Nat) (i j : Nat), i < j →
    ∀ (q r : List Nat), pathLt (p ++ i :: q) (p ++ j :: r) := by
  intro p
  induction p with
  | nil => intro i j hij q r; exact Or.inl hij
  | cons a p' ih => intro i j hij q r; exact Or.inr ⟨rfl, ih i j hij q r⟩

/-- C1: hit-testing considers children in reverse attachment order, so on
a mapped root with two popup children, a point inside the root and inside
both popups' boxes resolves to the most-recently-attached (second) popup,
with the point's coordinates local to that popup; and in the concrete
scenario of a root with one popup at offset (20,5) of size (30,30),
`surface_at(25,10)` returns the popup with local (5,5) while
`surface_at(5,5)` returns the root with local (5,5). -/
theorem surface_at_reverse_order
    (sid sid1 sid2 : Nat) (rgeo g1 g2 : Box) (o1x o1y o2x o2y : Int)
    (m1 m2 : Bool) (x y : Int)
    (_hroot : inBox rgeo x y = true)
    (_h1 : inBox g1 (x - o1x) (y - o1y) = true)
    (h2 : inBox g2 (x - o2x) (y - o2y) = true) :
    XdgSurface.surface_at
        (SNode.mk sid 0 0 rgeo true
          [SNode.mk sid1 o1x o1y g1 m1 [], SNode.mk sid2 o2x o2y g2 m2 []]) x y
      = (some sid2, x - o2x, y - o2y)
    ∧ XdgSurface.surface_at
        (SNode.mk 0 0 0 (Box.mk 0 0 40 40) true
          [SNode.mk 1 20 5 (Box.mk 0 0 30 30) true []]) 25 10 = (some 1, 5, 5)
    ∧ XdgSurface.surface_at
        (SNode.mk 0 0 0 (Box.mk 0 0 40 40) true
          [SNode.mk 1 20 5 (Box.mk 0 0 30 30) true []]) 5 5 = (some 0, 5, 5) := by
  refine ⟨?_, ?_, ?_⟩
  · simp [XdgSurface.surface_at, surfaceAtNode, surfaceAtChildren,
      SNode.ox, SNode.oy, h2]
  · simp [XdgSurface.surface_at, surfaceAtNode, surfaceAtChildren,
      SNode.ox, SNode.oy, inBox]
  · simp [XdgSurface.surface_at, surfaceAtNode, surfaceAtChildren,
      SNode.ox, SNode.oy, inBox]

theorem surface_at_reverse_order_witness :
    XdgSurface.surface_at
        (SNode.mk 0 0 0 (Box.mk 0 0 60 60) true
          [SNode.mk 1 10 10 (Box.mk 0 0 30 30) true [],
            SNode.mk 2 20 5 (Box.mk 0 0 30 30) true []]) 25 12
      = (some 2, 25 - 20, 12 - 5)
    ∧ XdgSurface.surface_at
        (SNode.mk 0 0 0 (Box.mk 0 0 40 40) true
          [SNode.mk 1 20 5 (Box.mk 0 0 30 30) true []]) 25 10 = (some 1, 5, 5)
    ∧ XdgSurface.surface_at
        (SNode.mk 0 0 0 (Box.mk 0 0 40 40) true
          [SNode.mk 1 20 5 (Box.mk 0 0 30 30) true []]) 5 5 = (some 0, 5, 5) :=
  surface_at_reverse_order 0 1 2 (Box.mk 0 0 60 60) (Box.mk 0 0 30 30)
    (Box.mk 0 0 30 30) 10 10 20 5 true true 25 12
    (by decide) (by decide) (by decide)

/-- C2: `for_each_surface` visits exactly the nodes reached by the paths
of the tree, in the order listed by `paths`, reporting each node with the
cumulative offset obtained by summing the local position offsets along
its path from the root (`visitOf`); and the path list is strictly sorted
by `pathLt`, the pre-order ordering in which every path comes before any
proper extension of it (a parent before all of its descendants,
`pathLt_self_append`) and sibling subtrees are ordered by child index
(attachment order, `pathLt_sibling`). -/
theorem for_each_surface_preorder (t : SNode) (dx dy : Int) :
    (for_each_surface t dx dy
      = (paths t).map
          (fun p => ((visitOf t p).1, dx + (visitOf t p).2.1, dy + (visitOf t p).2.2)))
    ∧ (paths t).Pairwise pathLt
    ∧ (∀ p r : List Nat, r ≠ [] → pathLt p (p ++ r))
    ∧ (∀ (p : List Nat) (i j : Nat), i < j →
        ∀ q r : List Nat, pathLt (p ++ i :: q) (p ++ j :: r)) :=
  ⟨for_each_eq t dx dy, paths_pairwise t, pathLt_self_append, pathLt_sibling⟩

/-- C3: once a role is assigned (role is no longer None), no operation —
and hence no sequence of operations — changes the role, and a second
`assign_role` on a live surface fails with `RoleAlreadySet` leaving the
whole state unchanged and emitting nothing. -/
theorem role_assigned_once (s : ShellSurface) (h : s.role ≠ SurfaceRole.none) :
    (∀ ops : List Op, ((runOps s ops).1).role = s.role)
    ∧ (s.destroyed = false →
        ∀ r, step s (Op.assignRole r) = (s, [], some ShellError.roleAlreadySet)) := by
  constructor
  · intro ops
    exact runOps_role_preserved ops s h
  · intro hd r
    simp [step, hd, assign_role, h]

theorem role_assigned_once_witness :
    (toplevelState.role ≠ SurfaceRole.none ∧ toplevelState.destroyed = false)
    ∧ ((runOps toplevelState [Op.mapOp, Op.setActivated true, Op.unmapOp]).1).role
        = toplevelState.role
    ∧ step toplevelState (Op.assignRole SurfaceRole.popup)
        = (toplevelState, [], some ShellError.roleAlreadySet) :=
  ⟨⟨by decide, by decide⟩,
    (role_assigned_once toplevelState (by decide)).1
      [Op.mapOp, Op.setActivated true, Op.unmapOp],
    (role_assigned_once toplevelState (by decide)).2 (by decide) SurfaceRole.popup⟩

/-- C4: in the notification history of any operation sequence on a fresh
surface, if both `unmap` and `destroy` are fired then some `unmap` occurs
at a strictly earlier position than `destroy`; and destroying a surface
that is currently mapped emits exactly `unmap` followed by `destroy`
(the unmap is synthesized first). -/
theorem unmap_before_destroy (ops : List Op)
    (hu : Ev.unmapEv ∈ trace ops) (hdm : Ev.destroyEv ∈ trace ops) :
    (∃ i j, i < j ∧ (trace ops).get? i = some Ev.unmapEv
        ∧ (trace ops).get? j = some Ev.destroyEv)
    ∧ (∀ s : ShellSurface, s.mapped = true → s.destroyed = false →
        (step s Op.destroyOp).2.1 = [Ev.unmapEv, Ev.destroyEv]) := by
  constructor
  · obtain ⟨pre, hpre, hnot⟩ := destroy_last ops newSurface rfl hdm
    unfold trace at hu ⊢
    rw [hpre] at hu ⊢
    have hupre : Ev.unmapEv ∈ pre := by
      rcases List.mem_append.mp hu with h | h
      · exact h
      · simp at h
    obtain ⟨n, hn⟩ := List.mem_iff_get.mp hupre
    refine ⟨n.val, pre.length, n.isLt, ?_, ?_⟩
    · rw [List.get?_append n.isLt, List.get?_eq_get n.isLt]
      simp only [List.get_eq_getElem] at hn
      simp [hn]
    · exact List.get?_concat_length pre Ev.destroyEv
  · intro s h1 h2
    simp [step, h2, h1]

theorem unmap_before_destroy_witness :
    (Ev.unmapEv ∈ trace [Op.assignRole SurfaceRole.toplevel, Op.mapOp, Op.destroyOp]
      ∧ Ev.destroyEv ∈ trace [Op.assignRole SurfaceRole.toplevel, Op.mapOp, Op.destroyOp])
    ∧ ((∃ i j, i < j
        ∧ (trace [Op.assignRole SurfaceRole.toplevel, Op.mapOp, Op.destroyOp]).get? i
            = some Ev.unmapEv
        ∧ (trace [Op.assignRole SurfaceRole.toplevel, Op.mapOp, Op.destroyOp]).get? j
            = some Ev.destroyEv)
      ∧ (∀ s : ShellSurface, s.mapped = true → s.destroyed = false →
          (step s Op.destroyOp).2.1 = [Ev.unmapEv, Ev.destroyEv])) :=
  ⟨⟨by decide, by decide⟩,
    unmap_before_destroy [Op.assignRole SurfaceRole.toplevel, Op.mapOp, Op.destroyOp]
      (by decide) (by decide)⟩

/-- C5 counterexample: on a (non-destroyed) popup-role surface,
`set_size` does not fail with `RoleMismatch` — the binding performs no
role check (unlike `set_activated`): the step reports no error and the
configure request is queued. -/
theorem set_size_no_role_check_cex :
    (step popupState (Op.setSize 100 100)).2.2 = none
    ∧ (step popupState (Op.setSize 100 100)).2.2 ≠ some ShellError.roleMismatch
    ∧ (step popupState (Op.setSize 100 100)).1.pendingConfigures = [1] := by
  decide

/-- C5 amended: `set_size` performs no role check: invoked on any
non-destroyed surface, whatever its role, it does not fail with
`RoleMismatch`; it queues a configure request and returns its serial
(only `set_activated` and the toplevel accessor validate the role). -/
theorem set_size_no_role_check (s : ShellSurface) (w h : Int)
    (hd : s.destroyed = false) :
    (step s (Op.setSize w h)).2.2 = none
    ∧ (step s (Op.setSize w h)).1 = (set_size s w h).1
    ∧ (set_size s w h).2 = s.nextSerial := by
  refine ⟨?_, ?_, rfl⟩ <;> simp [step, hd]

theorem set_size_no_role_check_witness :
    popupState.destroyed = false
    ∧ (step popupState (Op.setSize 640 480)).2.2 = none
    ∧ (step popupState (Op.setSize 640 480)).1 = (set_size popupState 640 480).1
    ∧ (set_size popupState 640 480).2 = popupState.nextSerial :=
  ⟨by decide, (set_size_no_role_check popupState 640 480 (by decide)).1,
    (set_size_no_role_check popupState 640 480 (by decide)).2.1,
    (set_size_no_role_check popupState 640 480 (by decide)).2.2⟩

/-- C6: `set_activated` fails with `RoleMismatch` on every surface whose
role is not Toplevel, for any boolean; on a Toplevel surface it succeeds
and returns the configure serial. -/
theorem set_activated_role_check (s : ShellSurface) (b : Bool) :
    (s.role ≠ SurfaceRole.toplevel →
      set_activated s b = Except.error ShellError.roleMismatch)
    ∧ (s.role = SurfaceRole.toplevel →
      ∃ s2, set_activated s b = Except.ok (s2, s.nextSerial)) := by
  constructor
  · intro h
    simp [set_activated, h]
  · intro h
    refine ⟨{ s with
        activated := b
        nextSerial := s.nextSerial + 1
        pendingConfigures := s.pendingConfigures ++ [s.nextSerial] }, ?_⟩
    simp [set_activated, h]

theorem set_activated_role_check_witness :
    set_activated popupState true = Except.error ShellError.roleMismatch
    ∧ ∃ s2, set_activated toplevelState true = Except.ok (s2, toplevelState.nextSerial) :=
  ⟨(set_activated_role_check popupState true).1 (by decide),
    (set_activated_role_check toplevelState true).2 (by decide)⟩

/-- C7: on a Toplevel surface `set_size` returns the configure serial and
does not change the geometry synchronously: the effective geometry read
back immediately after equals the one immediately before. -/
theorem set_size_geometry_unchanged (s : ShellSurface) (w h : Int)
    (_hrole : s.role = SurfaceRole.toplevel) :
    get_geometry (set_size s w h).1 = get_geometry s
    ∧ (set_size s w h).2 = s.nextSerial := by
  constructor
  · simp [set_size, get_geometry]
  · rfl

theorem set_size_geometry_unchanged_witness :
    toplevelState.role = SurfaceRole.toplevel
    ∧ get_geometry (set_size toplevelState 800 600).1 = get_geometry toplevelState
    ∧ (set_size toplevelState 800 600).2 = toplevelState.nextSerial :=
  ⟨by decide, (set_size_geometry_unchanged toplevelState 800 600 (by decide)).1,
    (set_size_geometry_unchanged toplevelState 800 600 (by decide)).2⟩

/-- C8: `set_geometry` with a non-empty box makes that box the effective
geometry; with an empty box the effective geometry becomes the bounding
box of the surface content and all mapped children's geometries
translated by their offsets; and on a root with two mapped children whose
translated geometries are (0,0,10,10) and (5,5,10,10), the effective
geometry is (0,0,15,15). -/
theorem set_geometry_effective (s : ShellSurface) (b : Box)
    (hb : emptyBox b = false) :
    get_geometry (set_geometry s b) = b
    ∧ (∀ (s2 : ShellSurface) (eb : Box), emptyBox eb = true →
        get_geometry (set_geometry s2 eb)
          = ((s2.children.filter (fun c => c.mapped)).map
              (fun c => translateBox c.ox c.oy c.geo)).foldl boxUnion s2.surfaceExtent)
    ∧ get_geometry (set_geometry rootExample (Box.mk 0 0 0 0)) = Box.mk 0 0 15 15 := by
  refine ⟨?_, ?_, ?_⟩
  · simp [set_geometry, get_geometry, hb]
  · intro s2 eb heb
    simp [set_geometry, get_geometry, heb]
  · decide

theorem set_geometry_effective_witness :
    emptyBox (Box.mk 0 0 20 20) = false
    ∧ get_geometry (set_geometry rootExample (Box.mk 0 0 20 20)) = Box.mk 0 0 20 20
    ∧ get_geometry (set_geometry rootExample (Box.mk 0 0 0 0)) = Box.mk 0 0 15 15 :=
  ⟨by decide, (set_geometry_effective rootExample (Box.mk 0 0 20 20) (by decide)).1,
    (set_geometry_effective rootExample (Box.mk 0 0 20 20) (by decide)).2.2⟩

/-- C9: a failed operation is reported synchronously and leaves the prior
state unchanged (all-or-nothing): whenever a step reports an error the
state is exactly the prior state and no notification is emitted; in
particular the toplevel accessor on a non-Toplevel surface reports
`RoleMismatch` and, being an accessor, mutates nothing. -/
theorem failed_op_leaves_state (s : ShellSurface) (op : Op) (e : ShellError)
    (h : (step s op).2.2 = some e) :
    (step s op).1 = s ∧ (step s op).2.1 = []
    ∧ (∀ s2 : ShellSurface, s2.role ≠ SurfaceRole.toplevel →
        XdgSurface.toplevel s2 = Except.error ShellError.roleMismatch) := by
  refine ⟨(step_error_unchanged op e h).1, (step_error_unchanged op e h).2, ?_⟩
  intro s2 h2
  simp [XdgSurface.toplevel, h2]

theorem failed_op_leaves_state_witness :
    (step popupState (Op.setActivated true)).2.2 = some ShellError.roleMismatch
    ∧ (step popupState (Op.setActivated true)).1 = popupState
    ∧ (step popupState (Op.setActivated true)).2.1 = []
    ∧ (∀ s2 : ShellSurface, s2.role ≠ SurfaceRole.toplevel →
        XdgSurface.toplevel s2 = Except.error ShellError.roleMismatch) :=
  ⟨by decide,
    (failed_op_leaves_state popupState (Op.setActivated true)
      ShellError.roleMismatch (by decide)).1,
    (failed_op_leaves_state popupState (Op.setActivated true)
      ShellError.roleMismatch (by decide)).2.1,
    (failed_op_leaves_state popupState (Op.setActivated true)
      ShellError.roleMismatch (by decide)).2.2⟩

/-- C10: whenever the native hit test finds no surface at the query
point, both the xdg and the layer `surface_at` wrappers return exactly
`(None, 0.0, 0.0)` — the no-match result always carries zero
coordinates. -/
theorem surface_at_no_match (t : SNode) (x y : Int)
    (h : surfaceAtNode t x y = none) :
    XdgSurface.surface_at t x y = (none, 0, 0)
    ∧ LayerSurface.surface_at t x y = (none, 0, 0) := by
  constructor <;> simp [XdgSurface.surface_at, LayerSurface.surface_at, h]

theorem surface_at_no_match_witness :
    XdgSurface.surface_at (SNode.mk 0 0 0 (Box.mk 0 0 10 10) true []) 100 100
      = (none, 0, 0)
    ∧ LayerSurface.surface_at (SNode.mk 0 0 0 (Box.mk 0 0 10 10) true []) 100 100
      = (none, 0, 0) :=
  surface_at_no_match (SNode.mk 0 0 0 (Box.mk 0 0 10 10) true []) 100 100
    (by simp [surfaceAtNode, surfaceAtChildren, inBox])
